import Mathlib

/-!
Verification of the client-side session synchronization engine of the
collaborative-whiteboard repository.

The definitions below are a shallow embedding of the JavaScript source:

* `Whiteboard.js` — the message handler `handleWebSocketMessage` and the
  store operations `addObjectToCanvas`, `updateObjectOnCanvas`,
  `removeObjectFromCanvas`, acting on the fabric canvas's object list;
* `SessionManager.js` (which also holds `utils/websocket.js`) — the
  `WebSocketManager` class: its `onclose` reconnection logic,
  `sendMessage` and `disconnect`.

JavaScript attribute records are modelled as association lists from
`String` to `Value`; numeric attribute values are modelled as integers
(the claims only compare them for equality).  Mutation of a fabric
object found by `objects.find(...)` is modelled as replacement of the
first list entry with a matching `id`.
-/

/-- A JavaScript attribute value: string, number or boolean. -/
inductive Value where
  | str (s : String)
  | num (n : Int)
  | bool (b : Bool)
deriving DecidableEq

/-- A JavaScript object holding attribute fields, as an association list. -/
abbrev AttrMap := List (String × Value)

/-- Look up attribute `k` (first binding wins, as in a JS object). -/
def lookupAttr : AttrMap → String → Option Value
  | [], _ => none
  | (k', v) :: rest, k => if k' = k then some v else lookupAttr rest k

/-- Assign attribute `k := v`, replacing an existing binding (JS property
assignment). -/
def setKey : AttrMap → String → Value → AttrMap
  | [], k, v => [(k, v)]
  | (k', v') :: rest, k, v =>
      if k' = k then (k, v) :: rest else (k', v') :: setKey rest k v

/-- Model of `obj.set(updates)` of fabric.js: assign every key of `updates` in order. -/
def setAttrs (a : AttrMap) (updates : AttrMap) : AttrMap :=
  updates.foldl (fun acc kv => setKey acc kv.1 kv.2) a

/-- The keys of an attribute record. -/
def keysOf (a : AttrMap) : List String := a.map Prod.fst

/-- JavaScript truthiness of a `Value`. -/
def isTruthy : Value → Bool
  | .str s => !s.isEmpty
  | .num n => n != 0
  | .bool b => b

/-- The JavaScript expression `x || d` for a possibly-absent `x`. -/
def jsOrD (x : Option Value) (d : Value) : Value :=
  match x with
  | some v => if isTruthy v then v else d
  | none => d

/-- The binding for key `k` copied verbatim from `d` when present
(`left: objData.data.left` — an absent source key leaves the property
unset). -/
def optEntry (d : AttrMap) (k : String) : AttrMap :=
  match lookupAttr d k with
  | some v => [(k, v)]
  | none => []

/-- An inbound wire object: `{ id, type, data }` as produced by the
originating client and carried in `object_added` / `session_state`
payloads. -/
structure ObjData where
  id : String
  type : String
  data : AttrMap
deriving DecidableEq

/-- A fabric.js object living on the canvas: its `id` property and its
other attribute fields. -/
structure FabricObject where
  id : String
  attrs : AttrMap
deriving DecidableEq

/-- Fields of `new fabric.Path(data.path, {...})` in `addObjectToCanvas`. -/
def pathAttrs (d : AttrMap) : AttrMap :=
  optEntry d "path" ++ optEntry d "stroke" ++ optEntry d "strokeWidth" ++
  [("fill", jsOrD (lookupAttr d "fill") (.str ""))] ++
  optEntry d "left" ++ optEntry d "top" ++
  [("scaleX", jsOrD (lookupAttr d "scaleX") (.num 1)),
   ("scaleY", jsOrD (lookupAttr d "scaleY") (.num 1)),
   ("angle", jsOrD (lookupAttr d "angle") (.num 0))]

/-- Fields of `new fabric.Rect({...})` in `addObjectToCanvas`. -/
def rectAttrs (d : AttrMap) : AttrMap :=
  optEntry d "left" ++ optEntry d "top" ++ optEntry d "width" ++
  optEntry d "height" ++ optEntry d "fill" ++ optEntry d "stroke" ++
  optEntry d "strokeWidth" ++
  [("scaleX", jsOrD (lookupAttr d "scaleX") (.num 1)),
   ("scaleY", jsOrD (lookupAttr d "scaleY") (.num 1)),
   ("angle", jsOrD (lookupAttr d "angle") (.num 0))]

/-- Fields of `new fabric.Circle({...})` in `addObjectToCanvas`. -/
def circleAttrs (d : AttrMap) : AttrMap :=
  optEntry d "left" ++ optEntry d "top" ++ optEntry d "radius" ++
  optEntry d "fill" ++ optEntry d "stroke" ++ optEntry d "strokeWidth" ++
  [("scaleX", jsOrD (lookupAttr d "scaleX") (.num 1)),
   ("scaleY", jsOrD (lookupAttr d "scaleY") (.num 1)),
   ("angle", jsOrD (lookupAttr d "angle") (.num 0))]

/-- Fields of `new fabric.Textbox(data.text, {...})` in `addObjectToCanvas`. -/
def textboxAttrs (d : AttrMap) : AttrMap :=
  optEntry d "text" ++ optEntry d "left" ++ optEntry d "top" ++
  optEntry d "fontSize" ++ optEntry d "fill" ++
  [("fontFamily", jsOrD (lookupAttr d "fontFamily") (.str "Arial"))] ++
  [("scaleX", jsOrD (lookupAttr d "scaleX") (.num 1)),
   ("scaleY", jsOrD (lookupAttr d "scaleY") (.num 1)),
   ("angle", jsOrD (lookupAttr d "angle") (.num 0)),
   ("editable", .bool true)]

/-- The object-type strings handled by `addObjectToCanvas`. -/
def isSupportedType (t : String) : Bool :=
  t = "path" || t = "rect" || t = "circle" || t = "text" || t = "textbox"

/-- The `if/else if` chain of `addObjectToCanvas` that constructs a fabric
object from wire data; an unhandled `type` constructs nothing. -/
def mkFabricObject (o : ObjData) : Option FabricObject :=
  if o.type = "path" then some { id := o.id, attrs := pathAttrs o.data }
  else if o.type = "rect" then some { id := o.id, attrs := rectAttrs o.data }
  else if o.type = "circle" then some { id := o.id, attrs := circleAttrs o.data }
  else if o.type = "text" ∨ o.type = "textbox" then
    some { id := o.id, attrs := textboxAttrs o.data }
  else none

/-- The fabric canvas state the handlers touch: its object list (in
insertion order, `canvas.add` appends) and its background color. -/
structure Canvas where
  objects : List FabricObject
  backgroundColor : String
deriving DecidableEq

/-- The cleared canvas: `canvas.clear(); canvas.backgroundColor = 'white'`. -/
def clearedCanvas : Canvas := { objects := [], backgroundColor := "white" }

/-- The function `addObjectToCanvas(objData)`: construct a fabric object for a supported
type and `canvas.add` it (append); otherwise do nothing. -/
def addObjectToCanvas (c : Canvas) (o : ObjData) : Canvas :=
  match mkFabricObject o with
  | some f => { c with objects := c.objects ++ [f] }
  | none => c

/-- In-place `obj.set(updates)` on the first object `objects.find` returns:
replace the first entry whose `id` matches. -/
def updateFirst : List FabricObject → String → AttrMap → List FabricObject
  | [], _, _ => []
  | f :: rest, oid, u =>
      if f.id = oid then { f with attrs := setAttrs f.attrs u } :: rest
      else f :: updateFirst rest oid u

/-- The function `updateObjectOnCanvas(objectId, updates)`: find the object by `id` and
apply `obj.set(updates)`; nothing happens when no object matches. -/
def updateObjectOnCanvas (c : Canvas) (objectId : String) (updates : AttrMap) :
    Canvas :=
  { c with objects := updateFirst c.objects objectId updates }

/-- Removal, via `canvas.remove(obj)`, of the first object `objects.find` returns. -/
def removeFirst : List FabricObject → String → List FabricObject
  | [], _ => []
  | f :: rest, oid => if f.id = oid then rest else f :: removeFirst rest oid

/-- The function `removeObjectFromCanvas(objectId)`: find the object by `id` and remove
it; nothing happens when no object matches. -/
def removeObjectFromCanvas (c : Canvas) (objectId : String) : Canvas :=
  { c with objects := removeFirst c.objects objectId }

/-- The Whiteboard component state touched by `handleWebSocketMessage`:
the fabric canvas (`fabricRef.current`, `none` before initialization),
the `userId`, `activeUsers` and `isConnected` React states. -/
structure ClientState where
  canvas : Option Canvas
  userId : Option String
  activeUsers : List String
  isConnected : Bool
deriving DecidableEq

/-- An inbound JSON envelope, classified by its `type` field.  For
`user_joined`/`user_left`/`session_state` the `active_users` field may be
absent (the source reads `data.active_users || []`). -/
inductive WsMessage where
  | session_state (user_id : String) (active_users : Option (List String))
      (objects : List ObjData)
  | object_added (user_id : String) (object : ObjData)
  | object_updated (user_id : String) (object_id : String) (updates : AttrMap)
  | object_deleted (user_id : String) (object_id : String)
  | canvas_cleared (user_id : String)
  | user_joined (active_users : Option (List String))
  | user_left (active_users : Option (List String))
  | error (message : String)
  | unknown (t : String)
deriving DecidableEq

/-- The handler `handleWebSocketMessage(data)` of `Whiteboard.js`: returns immediately
when the canvas is not initialized, otherwise dispatches on `data.type`.
Mutation envelopes are applied only when `data.user_id !== userId`. -/
def handleWebSocketMessage (s : ClientState) (data : WsMessage) : ClientState :=
  match s.canvas with
  | none => s
  | some canvas =>
    match data with
    | .session_state user_id active_users objects =>
        let loaded :=
          if 0 < objects.length then objects.foldl addObjectToCanvas clearedCanvas
          else clearedCanvas
        { s with userId := some user_id,
                 activeUsers := active_users.getD [],
                 isConnected := true,
                 canvas := some loaded }
    | .object_added user_id o =>
        if some user_id ≠ s.userId then
          { s with canvas := some (addObjectToCanvas canvas o) }
        else s
    | .object_updated user_id object_id updates =>
        if some user_id ≠ s.userId then
          { s with canvas := some (updateObjectOnCanvas canvas object_id updates) }
        else s
    | .object_deleted user_id object_id =>
        if some user_id ≠ s.userId then
          { s with canvas := some (removeObjectFromCanvas canvas object_id) }
        else s
    | .canvas_cleared user_id =>
        if some user_id ≠ s.userId then { s with canvas := some clearedCanvas }
        else s
    | .user_joined active_users => { s with activeUsers := active_users.getD [] }
    | .user_left active_users => { s with activeUsers := active_users.getD [] }
    | .error _ => s
    | .unknown _ => s

/-- A local ObjectStore operation (the four mutators of §4.3). -/
inductive StoreOp where
  | add (o : ObjData)
  | update (objectId : String) (updates : AttrMap)
  | remove (objectId : String)
  | clear
deriving DecidableEq

/-- Apply one store operation to the canvas with the source's mutators. -/
def applyOp (c : Canvas) : StoreOp → Canvas
  | .add o => addObjectToCanvas c o
  | .update objectId updates => updateObjectOnCanvas c objectId updates
  | .remove objectId => removeObjectFromCanvas c objectId
  | .clear => clearedCanvas

/-- Values of `WebSocket.readyState`. -/
inductive ReadyState where
  | CONNECTING
  | OPEN
  | CLOSING
  | CLOSED
deriving DecidableEq

/-- The `WebSocketManager` instance state (`utils/websocket.js`, debug
version): the socket (`none` models `this.ws === null`), the attempt
counter, its bound, the fixed delay and the intentional-close flag. -/
structure WebSocketManager where
  sessionId : String
  ws : Option ReadyState
  reconnectAttempts : Nat
  maxReconnectAttempts : Nat
  reconnectDelay : Nat
  isIntentionallyClosed : Bool
deriving DecidableEq

/-- The `this.ws.onclose` handler: returns the updated manager state and
`some delay` when a reconnection attempt was scheduled via `setTimeout`,
`none` when no reconnection was scheduled.  Guards run in source order:
intentional close, exhausted attempts, non-retryable close codes. -/
def WebSocketManager.onclose (m : WebSocketManager) (code : Nat) :
    WebSocketManager × Option Nat :=
  if m.isIntentionallyClosed then (m, none)
  else if m.reconnectAttempts ≥ m.maxReconnectAttempts then (m, none)
  else if code = 1008 ∨ code = 1003 then (m, none)
  else ({ m with reconnectAttempts := m.reconnectAttempts + 1 },
        some m.reconnectDelay)

/-- Run a sequence of closure events; the boolean records whether any of
them scheduled a reconnection attempt. -/
def oncloseRun : WebSocketManager → List Nat → WebSocketManager × Bool
  | m, [] => (m, false)
  | m, c :: cs =>
      let r := m.onclose c
      let rest := oncloseRun r.1 cs
      (rest.1, r.2.isSome || rest.2)

/-- The guard inside the scheduled `setTimeout` callback: `this.connect()`
runs only when the manager was not intentionally closed and the attempt
counter is within bounds. -/
def reconnectTimerGuard (m : WebSocketManager) : Bool :=
  !m.isIntentionallyClosed && m.reconnectAttempts ≤ m.maxReconnectAttempts

/-- The method `disconnect()`: set `isIntentionallyClosed` before closing the
transport, then drop the socket (`this.ws = null`). -/
def WebSocketManager.disconnect (m : WebSocketManager) : WebSocketManager :=
  { m with isIntentionallyClosed := true, ws := none }

/-- The method `sendMessage(message)`: returns the (unchanged) manager state, the
boolean result, and the payload handed to `this.ws.send` (`none` when
nothing was transmitted).  The payload stands for the JSON serialization
of the message. -/
def WebSocketManager.sendMessage (m : WebSocketManager) (message : String) :
    WebSocketManager × Bool × Option String :=
  match m.ws with
  | some ReadyState.OPEN => (m, true, some message)
  | _ => (m, false, none)

/-! ### Concrete states used to exercise the definitions -/

/-- The rectangle of the spec's scenario: `r1` at `left:10, top:10,
width:50, height:20`. -/
def oR1 : ObjData :=
  { id := "r1", type := "rect",
    data := [("left", .num 10), ("top", .num 10),
             ("width", .num 50), ("height", .num 20)] }

/-- A second wire object reusing the id `r1`. -/
def oR1v2 : ObjData :=
  { id := "r1", type := "rect", data := [("left", .num 99)] }

/-- A circle with a fresh id. -/
def oC1 : ObjData :=
  { id := "c1", type := "circle",
    data := [("left", .num 5), ("top", .num 5), ("radius", .num 50)] }

/-- The fabric object `addObjectToCanvas` builds from `oR1`. -/
def fR1 : FabricObject := { id := "r1", attrs := rectAttrs oR1.data }

/-- A canvas holding just `fR1`. -/
def cW : Canvas := { objects := [fR1], backgroundColor := "white" }

/-- A connected client owning `cW`, identified as `u1`. -/
def sA : ClientState :=
  { canvas := some cW, userId := some "u1", activeUsers := ["u1"],
    isConnected := true }

/-- A client whose canvas was never initialized. -/
def s0 : ClientState :=
  { canvas := none, userId := none, activeUsers := [], isConnected := false }

/-- A freshly constructed manager whose socket has just closed. -/
def mFresh : WebSocketManager :=
  { sessionId := "ABC123", ws := some .CLOSED, reconnectAttempts := 0,
    maxReconnectAttempts := 3, reconnectDelay := 5000,
    isIntentionallyClosed := false }

/-- A manager with an open socket. -/
def mOpen : WebSocketManager := { mFresh with ws := some .OPEN }

/-- A manager that has exhausted its reconnection attempts. -/
def mGaveUp : WebSocketManager := { mFresh with reconnectAttempts := 3 }

/-- The canvas after adding `oR1` and then `oR1v2` (same id) to an empty
canvas. -/
def cDup : Canvas := addObjectToCanvas (addObjectToCanvas clearedCanvas oR1) oR1v2

/-! ### Helper lemmas -/

lemma lookupAttr_setKey_self (a : AttrMap) (k : String) (v : Value) :
    lookupAttr (setKey a k v) k = some v := by
  induction a with
  | nil => simp [setKey, lookupAttr]
  | cons kv rest ih =>
    by_cases h : kv.1 = k
    · simp [setKey, h, lookupAttr]
    · simp [setKey, h, lookupAttr, ih]

lemma lookupAttr_setKey_of_ne (a : AttrMap) (k : String) (v : Value)
    (k' : String) (h : k ≠ k') : lookupAttr (setKey a k v) k' = lookupAttr a k' := by
  induction a with
  | nil => simp [setKey, lookupAttr, h]
  | cons kv rest ih =>
    by_cases hk : kv.1 = k
    · simp [setKey, hk, lookupAttr, h]
    · simp [setKey, hk, lookupAttr, ih]

lemma lookupAttr_setAttrs_of_not_mem (u : AttrMap) (a : AttrMap) (k : String)
    (h : k ∉ keysOf u) : lookupAttr (setAttrs a u) k = lookupAttr a k := by
  induction u generalizing a with
  | nil => rfl
  | cons kv rest ih =>
    simp only [keysOf, List.map_cons, List.mem_cons, not_or] at h
    rw [setAttrs, List.foldl_cons]
    have := ih (setKey a kv.1 kv.2) (by simpa [keysOf] using h.2)
    rw [setAttrs] at this
    rw [this, lookupAttr_setKey_of_ne _ _ _ _ (fun hk => h.1 hk.symm)]

lemma lookupAttr_setAttrs_of_lookup (u : AttrMap) (a : AttrMap) (k : String)
    (v : Value) (hnd : (keysOf u).Nodup) (h : lookupAttr u k = some v) :
    lookupAttr (setAttrs a u) k = some v := by
  induction u generalizing a with
  | nil => simp [lookupAttr] at h
  | cons kv rest ih =>
    simp only [keysOf, List.map_cons, List.nodup_cons] at hnd
    rw [setAttrs, List.foldl_cons]
    by_cases hk : kv.1 = k
    · rw [lookupAttr, if_pos hk] at h
      have hnm : k ∉ keysOf rest := by rw [← hk]; exact fun hm => hnd.1 hm
      have := lookupAttr_setAttrs_of_not_mem rest (setKey a kv.1 kv.2) k hnm
      rw [setAttrs] at this
      rw [this, hk, lookupAttr_setKey_self]
      simpa using h
    · rw [lookupAttr, if_neg hk] at h
      have := ih (setKey a kv.1 kv.2) hnd.2 h
      rwa [setAttrs] at this

lemma lookupAttr_eq_none_iff (u : AttrMap) (k : String) :
    lookupAttr u k = none ↔ k ∉ keysOf u := by
  induction u with
  | nil => simp [lookupAttr, keysOf]
  | cons kv rest ih =>
    rw [lookupAttr, keysOf, List.map_cons, List.mem_cons]
    by_cases hk : kv.1 = k
    · simp [hk]
    · rw [if_neg hk]
      simp only [keysOf] at ih
      rw [ih]
      constructor
      · rintro h (hm | hm)
        · exact hk hm.symm
        · exact h hm
      · exact fun h hm => h (Or.inr hm)

lemma mkFabricObject_id (o : ObjData) (f : FabricObject)
    (h : mkFabricObject o = some f) : f.id = o.id := by
  unfold mkFabricObject at h
  split_ifs at h
  all_goals try (injection h with h2)
  all_goals rw [← h2]

lemma supported_mkFabricObject (o : ObjData)
    (h : isSupportedType o.type = true) : ∃ f, mkFabricObject o = some f := by
  unfold isSupportedType at h
  unfold mkFabricObject
  split_ifs with h1 h2 h3 h4
  · exact ⟨_, rfl⟩
  · exact ⟨_, rfl⟩
  · exact ⟨_, rfl⟩
  · exact ⟨_, rfl⟩
  · exfalso
    simp only [Bool.or_eq_true, decide_eq_true_eq] at h
    rcases h with ((((h | h) | h) | h) | h) <;> simp_all

lemma foldl_addObjectToCanvas (objs : List ObjData) (c : Canvas) :
    objs.foldl addObjectToCanvas c =
      { c with objects := c.objects ++ objs.filterMap mkFabricObject } := by
  induction objs generalizing c with
  | nil => simp
  | cons o rest ih =>
    rw [List.foldl_cons, ih, List.filterMap_cons]
    cases hm : mkFabricObject o with
    | none => simp [addObjectToCanvas, hm]
    | some f => simp [addObjectToCanvas, hm]

lemma filterMap_mkFabricObject_ids (objs : List ObjData)
    (h : ∀ o ∈ objs, isSupportedType o.type = true) :
    (objs.filterMap mkFabricObject).map FabricObject.id =
      objs.map ObjData.id := by
  induction objs with
  | nil => rfl
  | cons o rest ih =>
    obtain ⟨f, hf⟩ := supported_mkFabricObject o (h o (List.mem_cons_self o rest))
    rw [List.filterMap_cons, hf, List.map_cons, List.map_cons,
        mkFabricObject_id o f hf,
        ih (fun o' ho' => h o' (List.mem_cons_of_mem o ho'))]

lemma updateFirst_of_none (l : List FabricObject) (oid : String) (u : AttrMap)
    (h : ∀ f ∈ l, f.id ≠ oid) : updateFirst l oid u = l := by
  induction l with
  | nil => rfl
  | cons f rest ih =>
    rw [updateFirst, if_neg (h f (List.mem_cons_self f rest))]
    rw [ih (fun g hg => h g (List.mem_cons_of_mem f hg))]

lemma removeFirst_of_none (l : List FabricObject) (oid : String)
    (h : ∀ f ∈ l, f.id ≠ oid) : removeFirst l oid = l := by
  induction l with
  | nil => rfl
  | cons f rest ih =>
    rw [removeFirst, if_neg (h f (List.mem_cons_self f rest))]
    rw [ih (fun g hg => h g (List.mem_cons_of_mem f hg))]

lemma updateFirst_append (pre post : List FabricObject) (f : FabricObject)
    (oid : String) (u : AttrMap) (hpre : ∀ g ∈ pre, g.id ≠ oid)
    (hf : f.id = oid) :
    updateFirst (pre ++ f :: post) oid u =
      pre ++ { f with attrs := setAttrs f.attrs u } :: post := by
  induction pre with
  | nil => simp [updateFirst, hf]
  | cons g rest ih =>
    rw [List.cons_append, updateFirst,
        if_neg (hpre g (List.mem_cons_self g rest)), List.cons_append,
        ih (fun g' hg' => hpre g' (List.mem_cons_of_mem g hg'))]

lemma updateFirst_map_id (l : List FabricObject) (oid : String) (u : AttrMap) :
    (updateFirst l oid u).map FabricObject.id = l.map FabricObject.id := by
  induction l with
  | nil => rfl
  | cons f rest ih =>
    by_cases h : f.id = oid
    · simp [updateFirst, h]
    · simp [updateFirst, h, ih]

lemma removeFirst_sublist (l : List FabricObject) (oid : String) :
    List.Sublist (removeFirst l oid) l := by
  induction l with
  | nil => exact List.Sublist.refl []
  | cons f rest ih =>
    by_cases h : f.id = oid
    · rw [removeFirst, if_pos h]
      exact List.sublist_cons_self f rest
    · rw [removeFirst, if_neg h]
      exact List.Sublist.cons₂ f ih

lemma onclose_stuck (m : WebSocketManager) (code : Nat)
    (h : m.isIntentionallyClosed = true ∨
         m.maxReconnectAttempts ≤ m.reconnectAttempts) :
    m.onclose code = (m, none) := by
  unfold WebSocketManager.onclose
  rcases h with h | h
  · rw [if_pos h]
  · by_cases hI : m.isIntentionallyClosed
    · rw [if_pos hI]
    · rw [if_neg hI, if_pos h]

lemma oncloseRun_stuck (m : WebSocketManager) (codes : List Nat)
    (h : m.isIntentionallyClosed = true ∨
         m.maxReconnectAttempts ≤ m.reconnectAttempts) :
    oncloseRun m codes = (m, false) := by
  induction codes with
  | nil => rfl
  | cons c cs ih => rw [oncloseRun, onclose_stuck m c h]; simp [ih]

/-! ### Claims -/

/-- C10: when the canvas has not been initialized
(`fabricRef.current` is null), `handleWebSocketMessage` returns
immediately and leaves the whole client state unchanged, for every
envelope kind — including `session_state`, whose snapshot, ClientId and
user list are silently discarded. -/
theorem canvas_absent_ignores_messages (s : ClientState)
    (data : WsMessage) (h : s.canvas = none) :
    handleWebSocketMessage s data = s := by
  unfold handleWebSocketMessage
  rw [h]

/-- Witness for C10: a bootstrap snapshot arriving before initialization
changes nothing. -/
theorem canvas_absent_ignores_messages_witness :
    handleWebSocketMessage s0 (.session_state "u9" (some ["u9"]) [oR1]) = s0 :=
  canvas_absent_ignores_messages s0
    (.session_state "u9" (some ["u9"]) [oR1]) rfl

/-- C1: on an initialized canvas, each of the four mutation envelopes
(`object_added`, `object_updated`, `object_deleted`, `canvas_cleared`)
is applied to the local object store via the corresponding store
operation exactly when the envelope's `user_id` differs from the local
`userId`; when the originator equals the local ClientId the state is
left completely unchanged. -/
theorem mutation_applied_iff_remote_originator (s : ClientState) (c : Canvas)
    (uid : String) (h : s.canvas = some c) :
    (∀ o, handleWebSocketMessage s (.object_added uid o) =
        if some uid ≠ s.userId then
          { s with canvas := some (addObjectToCanvas c o) } else s) ∧
    (∀ oid u, handleWebSocketMessage s (.object_updated uid oid u) =
        if some uid ≠ s.userId then
          { s with canvas := some (updateObjectOnCanvas c oid u) } else s) ∧
    (∀ oid, handleWebSocketMessage s (.object_deleted uid oid) =
        if some uid ≠ s.userId then
          { s with canvas := some (removeObjectFromCanvas c oid) } else s) ∧
    (handleWebSocketMessage s (.canvas_cleared uid) =
        if some uid ≠ s.userId then
          { s with canvas := some clearedCanvas } else s) := by
  refine ⟨fun o => ?_, fun oid u => ?_, fun oid => ?_, ?_⟩ <;>
    · unfold handleWebSocketMessage
      rw [h]

/-- Witness for C1: a remote `object_added` is applied to the store, a
self-originated one leaves the state unchanged. -/
theorem mutation_applied_iff_remote_originator_witness :
    handleWebSocketMessage sA (.object_added "u2" oR1) =
      { sA with canvas := some (addObjectToCanvas cW oR1) } ∧
    handleWebSocketMessage sA (.object_added "u1" oR1) = sA := by
  have h1 := (mutation_applied_iff_remote_originator sA cW "u2" rfl).1 oR1
  have h2 := (mutation_applied_iff_remote_originator sA cW "u1" rfl).1 oR1
  exact ⟨h1.trans (if_pos (by decide)), h2.trans (if_neg (by decide))⟩

/-- C7: `sendMessage` returns `true` and hands the serialized message to
the transport exactly when the socket is in the `OPEN` state; in every
other state it returns `false`, transmits nothing, and the manager state
is unchanged (no queueing, no retry). -/
theorem sendMessage_true_iff_open (m : WebSocketManager) (msg : String) :
    (m.sendMessage msg = (m, true, some msg) ↔ m.ws = some ReadyState.OPEN) ∧
    (m.ws ≠ some ReadyState.OPEN → m.sendMessage msg = (m, false, none)) := by
  constructor
  · constructor
    · intro h
      unfold WebSocketManager.sendMessage at h
      rcases hw : m.ws with _ | st
      · rw [hw] at h; simp at h
      · cases st <;> rw [hw] at h <;> simp_all
    · intro h
      unfold WebSocketManager.sendMessage
      rw [h]
  · intro h
    unfold WebSocketManager.sendMessage
    rcases hw : m.ws with _ | st
    · rfl
    · cases st <;> simp_all

/-- Witness for C7: sending on an open manager succeeds and transmits;
sending on a closed manager fails without queueing. -/
theorem sendMessage_true_iff_open_witness :
    mOpen.sendMessage "x" = (mOpen, true, some "x") ∧
    mFresh.sendMessage "x" = (mFresh, false, none) :=
  ⟨(sendMessage_true_iff_open mOpen "x").1.mpr rfl,
   (sendMessage_true_iff_open mFresh "x").2 (by decide)⟩

/-- C4 (counterexample): the claim names "oversized message" (close code
1009, `Message too big` in the source's own close-code table) as
non-retryable, but the `onclose` handler only short-circuits on codes
1008 and 1003; a 1009 closure with attempts remaining schedules a
reconnection attempt. -/
theorem oversized_close_schedules_reconnect :
    (mFresh.onclose 1009).2 = some 5000 ∧
    (mFresh.onclose 1009).1.reconnectAttempts = 1 := by
  exact ⟨rfl, rfl⟩

/-- C4 (amended): the non-retryable close codes are 1008 (policy
violation) and 1003 (unsupported data); for these the handler schedules
no reconnection attempt and changes nothing, regardless of how many
attempts remain. -/
theorem nonretryable_codes_never_reconnect (m : WebSocketManager)
    (code : Nat) (h : code = 1008 ∨ code = 1003) :
    m.onclose code = (m, none) := by
  by_cases hI : m.isIntentionallyClosed
  · unfold WebSocketManager.onclose
    rw [if_pos hI]
  · by_cases hA : m.reconnectAttempts ≥ m.maxReconnectAttempts
    · unfold WebSocketManager.onclose
      rw [if_neg hI, if_pos hA]
    · unfold WebSocketManager.onclose
      rw [if_neg hI, if_neg hA, if_pos h]

/-- Witness for amended C4: a policy-violation closure on a fresh manager
schedules nothing. -/
theorem nonretryable_codes_never_reconnect_witness :
    mFresh.onclose 1008 = (mFresh, none) :=
  nonretryable_codes_never_reconnect mFresh 1008 (Or.inl rfl)

/-- C5: an unexpected closure (not intentional, retryable code) with
attempts remaining schedules exactly one reconnection attempt after the
fixed delay and increments the counter; and once `reconnectAttempts` has
reached `maxReconnectAttempts`, no sequence of further closure events
ever schedules another attempt or changes the manager. -/
theorem reconnect_bound :
    (∀ (m : WebSocketManager) (code : Nat),
      m.isIntentionallyClosed = false →
      m.reconnectAttempts < m.maxReconnectAttempts →
      code ≠ 1008 → code ≠ 1003 →
      m.onclose code =
        ({ m with reconnectAttempts := m.reconnectAttempts + 1 },
         some m.reconnectDelay)) ∧
    (∀ (m : WebSocketManager) (codes : List Nat),
      m.maxReconnectAttempts ≤ m.reconnectAttempts →
      (oncloseRun m codes).2 = false ∧ (oncloseRun m codes).1 = m) := by
  constructor
  · intro m code hI hA h8 h3
    unfold WebSocketManager.onclose
    rw [if_neg (by simp [hI]), if_neg (by omega),
        if_neg (by rintro (h | h) <;> simp_all)]
  · intro m codes hA
    rw [oncloseRun_stuck m codes (Or.inr hA)]
    exact ⟨rfl, rfl⟩

/-- Witness for C5: a fresh manager schedules one attempt on an abnormal
closure (code 1006); a gave-up manager schedules nothing across further
closures. -/
theorem reconnect_bound_witness :
    mFresh.onclose 1006 =
      ({ mFresh with reconnectAttempts := 1 }, some 5000) ∧
    (oncloseRun mGaveUp [1006, 1006]).2 = false :=
  ⟨reconnect_bound.1 mFresh 1006 rfl (by decide) (by decide) (by decide),
   (reconnect_bound.2 mGaveUp [1006, 1006] (by decide)).1⟩

/-- C6: after an explicit `disconnect` (which sets the
intentionally-closed flag before tearing down the transport), no
sequence of subsequent closure events — including abnormal network
closures — ever schedules a reconnection attempt, the pending-timer
guard refuses to reconnect, and the flag stays set. -/
theorem intentional_close_never_reconnects (m : WebSocketManager)
    (codes : List Nat) :
    (oncloseRun m.disconnect codes).2 = false ∧
    reconnectTimerGuard m.disconnect = false ∧
    (oncloseRun m.disconnect codes).1.isIntentionallyClosed = true := by
  have hflag : m.disconnect.isIntentionallyClosed = true := rfl
  have hrun := oncloseRun_stuck m.disconnect codes (Or.inl hflag)
  refine ⟨by rw [hrun], ?_, by rw [hrun]; exact hflag⟩
  unfold reconnectTimerGuard WebSocketManager.disconnect
  simp

/-- C2: applying a `session_state` envelope replaces the store wholesale:
whatever the canvas held before, afterwards it holds exactly the fabric
objects built from the snapshot's payload in the order given (with its
cleared white background), and the local ClientId is replaced by the
snapshot's; the built objects carry exactly the snapshot's ids in order. -/
theorem session_state_replaces_store (s : ClientState) (c : Canvas)
    (uid : String) (au : Option (List String)) (objs : List ObjData)
    (h : s.canvas = some c)
    (hsup : ∀ o ∈ objs, isSupportedType o.type = true) :
    handleWebSocketMessage s (.session_state uid au objs) =
      { s with userId := some uid, activeUsers := au.getD [],
               isConnected := true,
               canvas := some { objects := objs.filterMap mkFabricObject,
                                backgroundColor := "white" } } ∧
    (objs.filterMap mkFabricObject).map FabricObject.id =
      objs.map ObjData.id := by
  have hload : (if 0 < objs.length then
        objs.foldl addObjectToCanvas clearedCanvas else clearedCanvas) =
      { objects := objs.filterMap mkFabricObject,
        backgroundColor := "white" } := by
    cases objs with
    | nil => simp [clearedCanvas]
    | cons o rest =>
      rw [if_pos (by simp), foldl_addObjectToCanvas]
      simp [clearedCanvas]
  refine ⟨?_, filterMap_mkFabricObject_ids objs hsup⟩
  unfold handleWebSocketMessage
  rw [h]
  simp only [hload]

/-- Witness for C2: a snapshot with two objects replaces `sA`'s store and
identity entirely. -/
theorem session_state_replaces_store_witness :
    handleWebSocketMessage sA
        (.session_state "u9" (some ["u9", "u1"]) [oR1, oC1]) =
      { sA with userId := some "u9", activeUsers := ["u9", "u1"],
                isConnected := true,
                canvas := some
                  { objects := [oR1, oC1].filterMap mkFabricObject,
                    backgroundColor := "white" } } ∧
    ([oR1, oC1].filterMap mkFabricObject).map FabricObject.id =
      [oR1, oC1].map ObjData.id :=
  session_state_replaces_store sA cW "u9" (some ["u9", "u1"]) [oR1, oC1]
    rfl (by decide)

/-- C3 (counterexample): adding a second object with the id `r1` does not
overwrite the first entry — the store ends up with two entries carrying
the same id, the first still holding its original attributes. -/
theorem add_duplicate_id_appends :
    cDup.objects.map FabricObject.id = ["r1", "r1"] ∧
    cDup.objects.map (fun f => lookupAttr f.attrs "left") =
      [some (Value.num 10), some (Value.num 99)] :=
  ⟨by decide, by decide⟩

/-- C3 (amended): `add` appends unconditionally, so an already-present id
yields a second entry; provided every added object's id is absent from
the store at the time of the add, each of add/update/remove/clear
preserves the invariant that every id occurs in at most one entry. -/
theorem add_fresh_preserves_unique_ids (c : Canvas) (op : StoreOp)
    (hnd : (c.objects.map FabricObject.id).Nodup)
    (hfresh : ∀ o, op = StoreOp.add o → ∀ f ∈ c.objects, f.id ≠ o.id) :
    ((applyOp c op).objects.map FabricObject.id).Nodup := by
  cases op with
  | add o =>
    show ((addObjectToCanvas c o).objects.map FabricObject.id).Nodup
    unfold addObjectToCanvas
    cases hm : mkFabricObject o with
    | none => exact hnd
    | some f =>
      have hfid := mkFabricObject_id o f hm
      show (((c.objects ++ [f]).map FabricObject.id)).Nodup
      rw [List.map_append, List.nodup_append]
      refine ⟨hnd, by simp, ?_⟩
      intro x hx hy
      simp only [List.map_cons, List.map_nil, List.mem_singleton] at hy
      obtain ⟨g, hg, hgid⟩ := List.mem_map.mp hx
      exact hfresh o rfl g hg (hgid.trans (hy.trans hfid))
  | update oid u =>
    show ((updateFirst c.objects oid u).map FabricObject.id).Nodup
    rw [updateFirst_map_id]
    exact hnd
  | remove oid =>
    show ((removeFirst c.objects oid).map FabricObject.id).Nodup
    exact List.Nodup.sublist
      (List.Sublist.map FabricObject.id (removeFirst_sublist c.objects oid)) hnd
  | clear => exact List.nodup_nil

/-- Witness for amended C3: adding a fresh-id circle to `cW` keeps ids
unique. -/
theorem add_fresh_preserves_unique_ids_witness :
    ((applyOp cW (StoreOp.add oC1)).objects.map FabricObject.id).Nodup :=
  add_fresh_preserves_unique_ids cW (StoreOp.add oC1) (by decide)
    (by intro o h; injection h with h2; subst h2; decide)

/-- C8: updating an existing object shallow-merges the payload into its
attributes: every key present in the payload takes the payload's value,
every key absent from the payload keeps its previous value, and all
other store entries are untouched. -/
theorem update_shallow_merge (c : Canvas) (pre post : List FabricObject)
    (f : FabricObject) (oid : String) (u : AttrMap)
    (hc : c.objects = pre ++ f :: post)
    (hpre : ∀ g ∈ pre, g.id ≠ oid)
    (hf : f.id = oid)
    (hnd : (keysOf u).Nodup) :
    (updateObjectOnCanvas c oid u).objects =
      pre ++ { f with attrs := setAttrs f.attrs u } :: post ∧
    (∀ k v, lookupAttr u k = some v →
      lookupAttr (setAttrs f.attrs u) k = some v) ∧
    (∀ k, lookupAttr u k = none →
      lookupAttr (setAttrs f.attrs u) k = lookupAttr f.attrs k) := by
  refine ⟨?_, fun k v hk => lookupAttr_setAttrs_of_lookup u f.attrs k v hnd hk,
    fun k hk => lookupAttr_setAttrs_of_not_mem u f.attrs k
      ((lookupAttr_eq_none_iff u k).mp hk)⟩
  show updateFirst c.objects oid u = _
  rw [hc, updateFirst_append pre post f oid u hpre hf]

/-- Witness for C8 (the spec's scenario): after `update("r1", {left:99})`
on a store holding `r1` with `width:50`, `left` is `99` and `width` is
still `50`. -/
theorem update_shallow_merge_witness :
    (updateObjectOnCanvas cW "r1" [("left", Value.num 99)]).objects =
      [] ++ { fR1 with
              attrs := setAttrs fR1.attrs [("left", Value.num 99)] } :: [] ∧
    lookupAttr (setAttrs fR1.attrs [("left", Value.num 99)]) "left" =
      some (Value.num 99) ∧
    lookupAttr (setAttrs fR1.attrs [("left", Value.num 99)]) "width" =
      some (Value.num 50) := by
  have h := update_shallow_merge cW [] [] fR1 "r1" [("left", Value.num 99)]
    rfl (by simp) rfl (by decide)
  exact ⟨h.1, h.2.1 "left" (Value.num 99) rfl,
    (h.2.2 "width" (by decide)).trans (by decide)⟩

/-- C9: `update` and `remove` on an id absent from the store are complete
no-ops — the canvas is returned unchanged and no error is possible. -/
theorem missing_id_is_noop (c : Canvas) (oid : String) (u : AttrMap)
    (h : ∀ f ∈ c.objects, f.id ≠ oid) :
    updateObjectOnCanvas c oid u = c ∧ removeObjectFromCanvas c oid = c := by
  constructor
  · unfold updateObjectOnCanvas
    rw [updateFirst_of_none c.objects oid u h]
  · unfold removeObjectFromCanvas
    rw [removeFirst_of_none c.objects oid h]

/-- Witness for C9: updating and removing the unknown id `zzz` leaves
`cW` untouched. -/
theorem missing_id_is_noop_witness :
    updateObjectOnCanvas cW "zzz" [("left", Value.num 1)] = cW ∧
    removeObjectFromCanvas cW "zzz" = cW :=
  missing_id_is_noop cW "zzz" [("left", Value.num 1)] (by decide)
